import Mathlib

/-!
Shallow embedding of the audio genre-classification pipeline of `script.js`
(a browser app: Resampler / Spectrogram Extractor / Frame Normalizer in a web
worker, Inference Engine / Result Ranker / UI orchestration in the main thread).

Modelling conventions:
* JavaScript numbers carried through the pipeline (samples, mel energies,
  probabilities, sample rates) are modelled as `ℚ`, so that every definition is
  executable and comparisons are decidable.  The one place where the code's
  numeric content is genuinely about logarithms (`10 * Math.log10(val + 1e-6)`,
  line 105) is modelled over `ℝ` with `Real.logb`.
* DOM state touched by the orchestrator is modelled as a record of the flags the
  code toggles (`hidden` classes, `disabled`, text contents).
* The external essentia.js and TensorFlow.js calls are modelled as parameters
  (for `essentia.Resample`) or as an explicit outcome describing whether the
  external call succeeded or threw (for `model.predict` / `prediction.data`).
-/

/-! ### Pipeline constants (script.js lines 30-38) -/

def MODEL_EXPECTED_SAMPLE_RATE : ℚ := 22050

def MODEL_INPUT_NUM_MELS : Nat := 64

def MODEL_INPUT_NUM_FRAMES : Nat := 96

def GENRE_CLASSES : List String :=
  ["blues", "classical", "country", "disco", "hiphop",
   "jazz", "metal", "pop", "reggae", "rock"]

/-! ### Frame Normalizer: `padOrTruncate` (script.js lines 122-139) -/

/-- The constant `-60` used for padding frames at line 131
(`const padding = Array(numMels).fill(-60)`). -/
def paddingValue : ℚ := -60

/-- Embeds `padOrTruncate(grid, numFrames, numMels)` (lines 122-139).
`currentFrames > numFrames` truncates with `grid.slice(0, numFrames)`;
`currentFrames < numFrames` copies the grid and then runs
`while (paddedGrid.length < numFrames) paddedGrid.push(padding)`, which appends
exactly `numFrames - currentFrames` copies of the row
`Array(numMels).fill(-60)`; otherwise the grid is returned unchanged. -/
def padOrTruncate (grid : List (List ℚ)) (numFrames numMels : Nat) : List (List ℚ) :=
  if numFrames < grid.length then
    grid.take numFrames
  else if grid.length < numFrames then
    grid ++ List.replicate (numFrames - grid.length) (List.replicate numMels paddingValue)
  else
    grid

/-- Closed form of `padOrTruncate`: first `numFrames` rows of the input followed
by the padding rows that top the grid up to `numFrames` rows. -/
theorem padOrTruncate_eq (grid : List (List ℚ)) (numFrames numMels : Nat) :
    padOrTruncate grid numFrames numMels
      = grid.take numFrames
        ++ List.replicate (numFrames - grid.length) (List.replicate numMels paddingValue) := by
  unfold padOrTruncate
  rcases Nat.lt_trichotomy numFrames grid.length with h | h | h
  · rw [if_pos h, Nat.sub_eq_zero_of_le (Nat.le_of_lt h), List.replicate_zero,
      List.append_nil]
  · rw [if_neg (by omega), if_neg (by omega), Nat.sub_eq_zero_of_le (Nat.le_of_eq h),
      List.replicate_zero, List.append_nil, List.take_of_length_le (Nat.le_of_eq h.symm)]
  · rw [if_neg (by omega), if_pos h, List.take_of_length_le (Nat.le_of_lt h)]

/-- Claim C1 (amended): for every input grid and target frame count the Frame
Normalizer returns exactly `numFrames` rows, namely the first `numFrames` rows
of the input followed by `numFrames - F` padding rows each consisting of
`numMels` (not `numFrames`) copies of `-60`.  In particular, if `F ≥ numFrames`
the output is the first `numFrames` rows of the input, and if `F = numFrames`
the input is returned unchanged. -/
theorem padOrTruncate_fixed_shape (grid : List (List ℚ)) (numFrames numMels : Nat) :
    (padOrTruncate grid numFrames numMels).length = numFrames ∧
    padOrTruncate grid numFrames numMels
      = grid.take numFrames
        ++ List.replicate (numFrames - grid.length) (List.replicate numMels paddingValue) := by
  refine ⟨?_, padOrTruncate_eq grid numFrames numMels⟩
  rw [padOrTruncate_eq, List.length_append, List.length_take, List.length_replicate]
  omega

/-- Counterexample to claim C1 as stated: at the pipeline's own constants
(`numFrames = 96`, `numMels = 64`) the padding rows produced for an empty input
grid are `64` copies of `-60` per row, not `numFrames = 96` copies as the claim
says. -/
theorem padOrTruncate_pad_row_width_cex :
    padOrTruncate [] MODEL_INPUT_NUM_FRAMES MODEL_INPUT_NUM_MELS
      ≠ List.replicate MODEL_INPUT_NUM_FRAMES
          (List.replicate MODEL_INPUT_NUM_FRAMES paddingValue) := by
  intro h
  rw [padOrTruncate_eq] at h
  simp only [List.take_nil, List.length_nil, Nat.sub_zero, List.nil_append] at h
  have h1 := congrArg (fun l => l[0]?.map List.length) h
  simp [ MODEL_INPUT_NUM_FRAMES, MODEL_INPUT_NUM_MELS, List.getElem?_replicate] at h1

/-! ### Spectrogram Extractor: log compression (script.js line 105) -/

/-- Embeds the per-band log compression `val => 10 * Math.log10(val + 1e-6)`
(line 105), giving `Math.log10` its real-number semantics `Real.logb 10`. -/
noncomputable def logCompress (val : ℝ) : ℝ :=
  10 * Real.logb 10 (val + 1 / 1000000)

/-- Claim C7: for a mel-band energy of exactly `0` the Spectrogram Extractor's
log-compressed value `10 * log10(0 + 1e-6)` equals `-60`, which is exactly the
Frame Normalizer's padding constant. -/
theorem logCompress_zero_eq_paddingValue : logCompress 0 = (paddingValue : ℝ) := by
  have h6 : (0 : ℝ) + 1 / 1000000 = ((10 : ℝ) ^ (6 : ℕ))⁻¹ := by norm_num
  rw [logCompress, h6, Real.logb_inv, Real.logb_pow,
    Real.logb_self_eq_one (by norm_num)]
  norm_num [paddingValue]

/-! ### Resampler: worker 'process' branch, step 2 (script.js lines 81-84) -/

/-- Embeds the resampling step of the worker's 'process' branch:
`let resampledVector = audioVector;
 if (sampleRate !== targetSr) resampledVector = essentia.Resample(...).signal;`.
The external `essentia.Resample` is the parameter `resampleExt`; a throw inside
it is caught by the branch's surrounding try/catch and becomes an error
response, modelled by `Except.error`.  The rates (JavaScript numbers compared
with `!==`) are modelled as `ℚ`. -/
def resampleStep (resampleExt : List ℚ → ℚ → ℚ → Except String (List ℚ))
    (audioData : List ℚ) (sampleRate targetSr : ℚ) : Except String (List ℚ) :=
  if sampleRate ≠ targetSr then resampleExt audioData sampleRate targetSr
  else Except.ok audioData

/-- An external resampler that rejects every call it receives; used to exhibit
that the worker code itself performs no rate validation on the identity path. -/
def rejectAllResample : List ℚ → ℚ → ℚ → Except String (List ℚ) :=
  fun _ _ _ => Except.error "InvalidRateError"

/-- Claim C6: resampling any sample sequence from a rate to the same rate
returns the sequence unchanged (identity fast-path), whatever the external
resampler would do. -/
theorem resampleStep_identity (resampleExt : List ℚ → ℚ → ℚ → Except String (List ℚ))
    (audioData : List ℚ) (r : ℚ) :
    resampleStep resampleExt audioData r r = Except.ok audioData := by
  simp [resampleStep]

/-- Counterexample to claim C4 as stated: a call whose rates are both `0`
(not positive) is not rejected — the worker has no rate validation, so the
identity fast-path accepts it even when the external resampler would reject
every call it sees. -/
theorem resampleStep_no_rate_validation_cex :
    ¬ (∀ (audioData : List ℚ) (sampleRate targetSr : ℚ),
        sampleRate ≤ 0 ∨ targetSr ≤ 0 →
        ∃ e, resampleStep rejectAllResample audioData sampleRate targetSr
          = Except.error e) := by
  intro hclaim
  obtain ⟨e, he⟩ := hclaim [] 0 0 (Or.inl le_rfl)
  simp [resampleStep] at he

/-- Claim C4 (amended): the worker performs no rate validation; in particular a
call whose (equal) input and target rates are non-positive is accepted and the
samples pass through unchanged, instead of being rejected with an
`InvalidRateError`. -/
theorem resampleStep_accepts_nonpositive_equal_rates
    (resampleExt : List ℚ → ℚ → ℚ → Except String (List ℚ))
    (audioData : List ℚ) (r : ℚ) (_h : r ≤ 0) :
    resampleStep resampleExt audioData r r = Except.ok audioData := by
  simp [resampleStep]

/-- Witness for `resampleStep_accepts_nonpositive_equal_rates` at the concrete
rate `0` and empty sample list. -/
theorem resampleStep_accepts_nonpositive_equal_rates_witness :
    resampleStep rejectAllResample [] 0 0 = Except.ok [] :=
  resampleStep_accepts_nonpositive_equal_rates rejectAllResample [] 0 le_rfl

/-! ### Result Ranker: `displayResults` (script.js lines 441-461) -/

/-- Embeds `GENRE_CLASSES[i] || 'Unknown'` (line 445): an out-of-range index
falls back to the label `"Unknown"`.  (Every genre name is a nonempty string,
so JavaScript truthiness coincides with presence here.) -/
def genreLabel (i : Nat) : String := GENRE_CLASSES.getD i "Unknown"

/-- The sort comparator `(a, b) => b.probability - a.probability` (line 448):
`a` may be placed no later than `b` exactly when `b.probability ≤
a.probability`.  `Array.prototype.sort` is required by ECMAScript to be stable,
so the sort itself is modelled by the stable `List.mergeSort`. -/
def probDescLE {α : Type} (a b : α × ℚ) : Bool := decide (b.2 ≤ a.2)

/-- The ranked `results` array of `displayResults` (lines 443-448), with each
score tagged by its original index rather than by its genre label; mapping the
index through `genreLabel` recovers the array the code builds (see
`displayedResults_eq`). -/
def rankResults (probs : List ℚ) : List (Nat × ℚ) :=
  probs.enum.mergeSort probDescLE

/-- The ranked `results` array exactly as `displayResults` builds it (lines
443-448): label each probability with its genre, then sort by descending
probability with a stable sort. -/
def displayedResults (probs : List ℚ) : List (String × ℚ) :=
  (probs.enum.map (fun x => (genreLabel x.1, x.2))).mergeSort probDescLE

theorem probDescLE_trans {α : Type} (a b c : α × ℚ)
    (hab : probDescLE a b) (hbc : probDescLE b c) : probDescLE a c := by
  simp only [probDescLE, decide_eq_true_eq] at hab hbc ⊢
  exact le_trans hbc hab

theorem probDescLE_total {α : Type} (a b : α × ℚ) :
    probDescLE a b || probDescLE b a := by
  simpa [probDescLE] using le_total b.2 a.2

/-- Labelling commutes with the stable sort, because the comparator only looks
at the probability component. -/
theorem displayedResults_eq (probs : List ℚ) :
    displayedResults probs
      = (rankResults probs).map (fun x => (genreLabel x.1, x.2)) := by
  unfold displayedResults rankResults
  rw [List.map_mergeSort]
  intro a _ b _
  rfl

/-- Two entries read off a list at positions `i < j` form a sublist. -/
theorem pair_sublist_of_getElem? {α : Type} :
    ∀ (l : List α) (i j : Nat) (a b : α), i < j → l[i]? = some a → l[j]? = some b →
      [a, b].Sublist l
  | [], _, _, _, _, _, ha, _ => by simp at ha
  | _ :: _, _, 0, _, _, hij, _, _ => absurd hij (Nat.not_lt_zero _)
  | x :: xs, 0, j + 1, a, b, _, ha, hb => by
    simp only [List.getElem?_cons_zero, Option.some.injEq] at ha
    simp only [List.getElem?_cons_succ] at hb
    subst ha
    exact (List.singleton_sublist.mpr (List.getElem?_mem hb)).cons₂ x
  | x :: xs, i + 1, j + 1, a, b, hij, ha, hb => by
    simp only [List.getElem?_cons_succ] at ha hb
    exact (pair_sublist_of_getElem? xs i j a b (Nat.lt_of_succ_lt_succ hij) ha hb).cons x

/-- Claim C5: the Result Ranker's output has the same length as the input, is
sorted non-increasing by score, preserves the relative order of original label
indices for equal scores, is a permutation of the index-tagged input pairs, and
leaves the sum of the scores unchanged. -/
theorem displayResults_ranking (probs : List ℚ) :
    (rankResults probs).length = probs.length ∧
    (rankResults probs).Pairwise (fun a b => b.2 ≤ a.2) ∧
    (∀ i j p q, i < j → probs[i]? = some p → probs[j]? = some q → p = q →
      [(i, p), (j, q)].Sublist (rankResults probs)) ∧
    (rankResults probs).Perm probs.enum ∧
    ((rankResults probs).map Prod.snd).sum = probs.sum := by
  refine ⟨?_, ?_, ?_, List.mergeSort_perm probs.enum probDescLE, ?_⟩
  · simp [rankResults]
  · exact (List.sorted_mergeSort probDescLE_trans probDescLE_total probs.enum).imp
      (fun h => by simpa [probDescLE] using h)
  · intro i j p q hij hi hj hpq
    subst hpq
    have henum_i : probs.enum[i]? = some (i, p) := by
      simp [List.enum_eq_enumFrom, List.getElem?_enumFrom, hi]
    have henum_j : probs.enum[j]? = some (j, p) := by
      simp [List.enum_eq_enumFrom, List.getElem?_enumFrom, hj]
    exact List.pair_sublist_mergeSort probDescLE_trans probDescLE_total
      (by simp [probDescLE])
      (pair_sublist_of_getElem? probs.enum i j (i, p) (j, p) hij henum_i henum_j)
  · rw [rankResults, ((List.mergeSort_perm probs.enum probDescLE).map Prod.snd).sum_eq,
      List.enum_map_snd]

/-- Witness for `displayResults_ranking` at `probs = [1, 0, 1]`: the two tied
scores keep their original relative order in the ranking. -/
theorem displayResults_ranking_witness :
    (rankResults [1, 0, 1]).length = 3 ∧
    [((0 : Nat), (1 : ℚ)), (2, 1)].Sublist (rankResults [1, 0, 1]) :=
  ⟨(displayResults_ranking [1, 0, 1]).1,
   (displayResults_ranking [1, 0, 1]).2.2.1 0 2 1 1 (by decide) (by decide)
     (by decide) rfl⟩

/-- Claim C10: when the probability vector is longer than `GENRE_CLASSES`, the
ranker still works: its output keeps the input's length, every index past the
label list gets the label `"Unknown"`, such entries still appear in the
displayed ranking, and every input index participates. -/
theorem displayResults_overflow_labels (probs : List ℚ)
    (_h : GENRE_CLASSES.length < probs.length) :
    (displayedResults probs).length = probs.length ∧
    (∀ i, GENRE_CLASSES.length ≤ i → genreLabel i = "Unknown") ∧
    (∀ x, x ∈ rankResults probs → GENRE_CLASSES.length ≤ x.1 →
      ("Unknown", x.2) ∈ displayedResults probs) ∧
    (∀ i, i < probs.length → ∃ p, probs[i]? = some p ∧ (i, p) ∈ rankResults probs) := by
  refine ⟨?_, ?_, ?_, ?_⟩
  · simp [displayedResults]
  · intro i hi
    simp [genreLabel, List.getD_eq_getElem?_getD, List.getElem?_eq_none hi]
  · intro x hx hxi
    rw [displayedResults_eq]
    have : (genreLabel x.1, x.2) ∈ (rankResults probs).map (fun y => (genreLabel y.1, y.2)) :=
      List.mem_map_of_mem _ hx
    simpa [genreLabel, List.getD_eq_getElem?_getD, List.getElem?_eq_none hxi] using this
  · intro i hi
    refine ⟨probs[i], List.getElem?_eq_getElem hi, ?_⟩
    have : probs.enum[i]? = some (i, probs[i]) := by
      simp [List.enum_eq_enumFrom, List.getElem?_enumFrom, List.getElem?_eq_getElem hi]
    exact List.mem_mergeSort.mpr (List.getElem?_mem this)

/-- Witness for `displayResults_overflow_labels` at a concrete 11-score vector:
index `10` is past the 10-entry label list and is displayed as `"Unknown"`. -/
theorem displayResults_overflow_labels_witness :
    genreLabel 10 = "Unknown" ∧
    (displayedResults [0, 0, 0, 0, 0, 0, 0, 0, 0, 0, 1]).length = 11 :=
  ⟨(displayResults_overflow_labels [0, 0, 0, 0, 0, 0, 0, 0, 0, 0, 1]
      (by decide)).2.1 10 (by decide),
   (displayResults_overflow_labels [0, 0, 0, 0, 0, 0, 0, 0, 0, 0, 1]
      (by decide)).1⟩

/-! ### UI state and utilities (script.js lines 503-542) -/

/-- The DOM state the orchestrator manipulates: the `hidden` CSS classes of the
results section, the loader and the results content, the classify button's
`disabled` flag, the status message text, and the predicted-genre text.
(The Plotly chart container is not modelled.) -/
structure UIState where
  resultsSectionHidden : Bool
  loaderHidden : Bool
  resultsContentHidden : Bool
  classifyBtnDisabled : Bool
  statusMessage : String
  predictedGenre : String
  deriving DecidableEq

/-- Embeds `updateStatus(message)` (lines 509-511). -/
def updateStatus (message : String) (u : UIState) : UIState :=
  { u with statusMessage := message }

/-- Embeds `setLoading(isLoading, message = '')` (lines 518-531); the empty
string plays the role of the omitted/falsy `message` in
`message || 'Processing...'`. -/
def setLoading (isLoading : Bool) (message : String) (u : UIState) : UIState :=
  if isLoading then
    { u with resultsSectionHidden := false, loaderHidden := false,
             resultsContentHidden := true, classifyBtnDisabled := true,
             statusMessage := if message = "" then "Processing..." else message }
  else
    { u with loaderHidden := true, resultsContentHidden := false,
             classifyBtnDisabled := false,
             statusMessage := if message = "" then "Classification complete." else message }

/-- Embeds `resetResults()` (lines 536-542), minus the Plotly purge. -/
def resetResults (u : UIState) : UIState :=
  { u with resultsSectionHidden := true, resultsContentHidden := true,
           loaderHidden := true, predictedGenre := "..." }

/-- Embeds the UI effect of `displayResults(probabilities)` (lines 441-461):
write the top-ranked genre into the predicted-genre element, then
`setLoading(false)` with no message.  (The classifier always returns at least
one score; on an empty vector the JavaScript would throw at `results[0]`,
which `headD` papers over here.) -/
def displayResultsUI (probabilities : List ℚ) (u : UIState) : UIState :=
  setLoading false ""
    { u with predictedGenre := ((displayedResults probabilities).headD ("Unknown", 0)).1 }

/-! ### Inference Engine and orchestrator state (script.js lines 376-435) -/

/-- Which of the externally-performed steps of `runInference`'s `try` block
throws, if any: `model.predict(inputTensor)` (`predictThrows`),
`prediction.data()` (`dataThrows`), or none (`ok`, carrying the probability
vector that `prediction.data()` returned). -/
inductive InferOutcome where
  | predictThrows
  | dataThrows
  | ok (probabilities : List ℚ)

/-- The TensorFlow.js tensor registry: tensors are identified by allocation
order; `dispose` removes a tensor from the live set. -/
structure TensorHeap where
  nextId : Nat
  live : List Nat
  deriving DecidableEq

def TensorHeap.alloc (h : TensorHeap) : Nat × TensorHeap :=
  (h.nextId, { nextId := h.nextId + 1, live := h.live ++ [h.nextId] })

def TensorHeap.dispose (h : TensorHeap) (id : Nat) : TensorHeap :=
  { h with live := h.live.filter (fun t => decide (t ≠ id)) }

/-- A worker `process` request as posted by `handleClassify` (lines 385-392). -/
structure ProcessRequest where
  audioData : List ℚ
  sampleRate : ℚ
  targetSr : ℚ
  numMels : Nat
  numFrames : Nat
  deriving DecidableEq

/-- The application's global mutable state (lines 40-45) plus the observable
effects: the DOM state, the list of messages posted to the worker, and the
tensor registry.  `model`/`currentAudioBuffer` are the nullable globals; an
audio buffer is its mono channel data together with its sample rate. -/
structure AppState where
  currentAudioBuffer : Option (List ℚ × ℚ)
  model : Option Unit
  workerInitialized : Bool
  ui : UIState
  workerInbox : List ProcessRequest
  heap : TensorHeap
  deriving DecidableEq

/-- Embeds `handleClassify()` (lines 376-393): bail out with a status message
when the audio buffer or the model is missing; otherwise enter the loading
state and post the audio and the pipeline constants to the worker. -/
def handleClassify (s : AppState) : AppState :=
  match s.currentAudioBuffer, s.model with
  | some buffer, some _ =>
    { s with
      ui := setLoading true "Extracting features..." s.ui,
      workerInbox := s.workerInbox ++
        [{ audioData := buffer.1, sampleRate := buffer.2,
           targetSr := MODEL_EXPECTED_SAMPLE_RATE,
           numMels := MODEL_INPUT_NUM_MELS,
           numFrames := MODEL_INPUT_NUM_FRAMES }] }
  | _, _ => { s with ui := updateStatus "Error: Audio or model not ready." s.ui }

/-- Embeds the success path of `loadModel()` (lines 193-203): the global
`model` is assigned, then a status message is shown depending on whether the
worker is already initialized. -/
def loadModelSuccess (s : AppState) : AppState :=
  { s with model := some (),
           ui := updateStatus
             (if s.workerInitialized then
               "Model loaded. Essentia.js ready. Select a file or record."
              else
               "Model loaded. Waiting for audio processor...") s.ui }

/-- Embeds `runInference(features)` (lines 402-435).  The feature grid only
feeds the input tensor's contents, which the tensor registry does not track.
Faithful to the source, the `catch` block runs `setLoading(false, 'Inference
failed.')` and then `if (prediction) prediction.dispose()` — so when
`model.predict` throws, `prediction` was never assigned and nothing is
disposed, and in neither failure case is `inputTensor` disposed. -/
def runInference (outcome : InferOutcome) (_features : List (List ℚ)) (s : AppState) :
    AppState :=
  match s.model with
  | none => { s with ui := setLoading false "Error: Model not loaded." s.ui }
  | some _ =>
    let s := { s with ui := setLoading true "Classifying..." s.ui }
    let (inputTensor, heap) := s.heap.alloc
    match outcome with
    | .predictThrows =>
      { s with heap := heap, ui := setLoading false "Inference failed." s.ui }
    | .dataThrows =>
      let (prediction, heap) := heap.alloc
      { s with heap := heap.dispose prediction,
               ui := setLoading false "Inference failed." s.ui }
    | .ok probabilities =>
      let (prediction, heap) := heap.alloc
      let heap := (heap.dispose inputTensor).dispose prediction
      { s with heap := heap, ui := displayResultsUI probabilities s.ui }

/-- Embeds the `error` branch of `essentiaWorker.onmessage` (lines 183-186). -/
def onWorkerError (s : AppState) : AppState :=
  { s with ui := setLoading false "Feature extraction failed." s.ui }

/-- A concrete application state with a decoded clip and a loaded model. -/
def appReady : AppState :=
  { currentAudioBuffer := some ([1, 2, 3], 44100), model := some (),
    workerInitialized := true,
    ui := { resultsSectionHidden := true, loaderHidden := true,
            resultsContentHidden := true, classifyBtnDisabled := true,
            statusMessage := "", predictedGenre := "..." },
    workerInbox := [], heap := { nextId := 0, live := [] } }

/-- Claim C2, evaluated at the failing inputs: when `model.predict` throws, or
when `prediction.data()` throws, the input tensor (id `0`) is still live after
`runInference` returns — only the success path disposes every tensor it
created.  This contradicts the claimed release-on-all-exit-paths discipline. -/
theorem runInference_tensor_leak :
    (runInference .predictThrows [] appReady).heap.live = [0] ∧
    (runInference .dataThrows [] appReady).heap.live = [0] ∧
    (runInference (.ok [1]) [] appReady).heap.live = [] :=
  ⟨rfl, rfl, rfl⟩

/-- Counterexample to claim C3 as stated: starting from a ready state whose
results area is hidden, a worker extraction error leaves the results section
and the results content visible (with the placeholder genre text), rather than
hidden or reset. -/
theorem results_area_visible_after_failure_cex :
    (onWorkerError (handleClassify appReady)).ui.resultsSectionHidden = false ∧
    (onWorkerError (handleClassify appReady)).ui.resultsContentHidden = false ∧
    (onWorkerError (handleClassify appReady)).ui.predictedGenre = "..." :=
  ⟨rfl, rfl, rfl⟩

/-- Claim C3 (amended): on a pipeline failure — an extraction error reported by
the worker, or an exception during inference — the loader is hidden and the
results content is revealed with its previous (possibly placeholder) genre
text, while the results section stays visible; the failure is reported only
through the status message. -/
theorem pipeline_failure_leaves_results_visible (s : AppState)
    (buffer : List ℚ × ℚ) (features : List (List ℚ))
    (hbuf : s.currentAudioBuffer = some buffer) (hmodel : s.model = some ()) :
    ((onWorkerError (handleClassify s)).ui.resultsSectionHidden = false ∧
     (onWorkerError (handleClassify s)).ui.loaderHidden = true ∧
     (onWorkerError (handleClassify s)).ui.resultsContentHidden = false ∧
     (onWorkerError (handleClassify s)).ui.statusMessage = "Feature extraction failed." ∧
     (onWorkerError (handleClassify s)).ui.predictedGenre = s.ui.predictedGenre) ∧
    ((runInference .predictThrows features (handleClassify s)).ui.resultsSectionHidden = false ∧
     (runInference .predictThrows features (handleClassify s)).ui.loaderHidden = true ∧
     (runInference .predictThrows features (handleClassify s)).ui.resultsContentHidden = false ∧
     (runInference .predictThrows features (handleClassify s)).ui.statusMessage = "Inference failed." ∧
     (runInference .predictThrows features (handleClassify s)).ui.predictedGenre = s.ui.predictedGenre) := by
  simp [onWorkerError, handleClassify, runInference, hbuf, hmodel, setLoading, updateStatus]

/-- Witness for `pipeline_failure_leaves_results_visible` at a concrete ready
state. -/
theorem pipeline_failure_leaves_results_visible_witness :
    (onWorkerError (handleClassify appReady)).ui.loaderHidden = true ∧
    (runInference .predictThrows [] (handleClassify appReady)).ui.resultsSectionHidden = false :=
  ⟨(pipeline_failure_leaves_results_visible appReady ([1, 2, 3], 44100) [] rfl rfl).1.2.1,
   (pipeline_failure_leaves_results_visible appReady ([1, 2, 3], 44100) [] rfl rfl).2.1⟩

/-- Claim C8: invoking the classify action while the model handle is `none`
only writes the not-ready status message: no loading state is entered, no
worker message is posted, the rest of the state is untouched, and after a later
successful model load a classify with a decoded clip posts the process request
as usual.  The same guard in `runInference` likewise only reports an error. -/
theorem handleClassify_without_model (s : AppState) (h : s.model = none) :
    (handleClassify s).ui.statusMessage = "Error: Audio or model not ready." ∧
    (handleClassify s).workerInbox = s.workerInbox ∧
    (handleClassify s).ui.resultsSectionHidden = s.ui.resultsSectionHidden ∧
    (handleClassify s).ui.loaderHidden = s.ui.loaderHidden ∧
    (handleClassify s).ui.resultsContentHidden = s.ui.resultsContentHidden ∧
    (handleClassify s).ui.classifyBtnDisabled = s.ui.classifyBtnDisabled ∧
    (handleClassify s).currentAudioBuffer = s.currentAudioBuffer ∧
    (handleClassify s).model = none ∧
    (∀ buffer : List ℚ × ℚ,
      (handleClassify { loadModelSuccess (handleClassify s) with
          currentAudioBuffer := some buffer }).workerInbox
        = s.workerInbox ++
          [{ audioData := buffer.1, sampleRate := buffer.2,
             targetSr := MODEL_EXPECTED_SAMPLE_RATE,
             numMels := MODEL_INPUT_NUM_MELS,
             numFrames := MODEL_INPUT_NUM_FRAMES }]) := by
  cases hbuf : s.currentAudioBuffer with
  | none =>
    simp [handleClassify, h, hbuf, loadModelSuccess, updateStatus, setLoading]
  | some b =>
    simp [handleClassify, h, hbuf, loadModelSuccess, updateStatus, setLoading]

/-- A concrete application state with a decoded clip but no model loaded. -/
def appNoModel : AppState :=
  { currentAudioBuffer := some ([1], 48000), model := none,
    workerInitialized := true,
    ui := { resultsSectionHidden := true, loaderHidden := true,
            resultsContentHidden := true, classifyBtnDisabled := true,
            statusMessage := "", predictedGenre := "..." },
    workerInbox := [], heap := { nextId := 0, live := [] } }

/-- Witness for `handleClassify_without_model` at `appNoModel`: the early-out
posts nothing, and after a successful load a classify posts the request. -/
theorem handleClassify_without_model_witness :
    (handleClassify appNoModel).ui.statusMessage = "Error: Audio or model not ready." ∧
    (handleClassify appNoModel).workerInbox = [] ∧
    (handleClassify { loadModelSuccess (handleClassify appNoModel) with
        currentAudioBuffer := some ([2], 44100) }).workerInbox
      = [{ audioData := [2], sampleRate := 44100,
           targetSr := MODEL_EXPECTED_SAMPLE_RATE,
           numMels := MODEL_INPUT_NUM_MELS,
           numFrames := MODEL_INPUT_NUM_FRAMES }] :=
  ⟨(handleClassify_without_model appNoModel rfl).1,
   (handleClassify_without_model appNoModel rfl).2.1,
   (handleClassify_without_model appNoModel rfl).2.2.2.2.2.2.2.2 ([2], 44100)⟩

/-! ### Spectrogram Extractor framing (script.js lines 88-110) -/

/-- Modelled from the spec: the frame count of the mel-spectrogram grid
computed by the external `essentia.MelSpectrogram` call (line 88; frame size
2048, hop size 1024).  The DSP itself lives in the essentia.js WASM module,
outside this repository's source, so only its framing contract is modelled:
`floor((len(S) - 2048)/1024) + 1` frames, or `0` frames when the clip is
shorter than one analysis frame. -/
def melFrameCount (len : Nat) : Nat :=
  if len < 2048 then 0 else (len - 2048) / 1024 + 1

/-- Claim C9: the extractor yields `floor((len - 2048)/1024) + 1` frames for
clips of at least one analysis frame; a clip shorter than one frame yields a
0-frame grid, on which the downstream Frame Normalizer still completes,
producing the all-padding `96 × 64` grid. -/
theorem melFrameCount_short_clip (S : List ℚ) (grid : List (List ℚ)) (n : Nat)
    (hshort : S.length < 2048) (hgrid : grid.length = melFrameCount S.length)
    (hn : 2048 ≤ n) :
    grid = [] ∧
    padOrTruncate grid MODEL_INPUT_NUM_FRAMES MODEL_INPUT_NUM_MELS
      = List.replicate MODEL_INPUT_NUM_FRAMES
          (List.replicate MODEL_INPUT_NUM_MELS paddingValue) ∧
    melFrameCount n = (n - 2048) / 1024 + 1 := by
  have hg : grid = [] := by
    have h0 : melFrameCount S.length = 0 := by simp [melFrameCount, hshort]
    exact List.length_eq_zero.mp (hgrid.trans h0)
  subst hg
  refine ⟨rfl, ?_, by simp [melFrameCount, Nat.not_lt.mpr hn]⟩
  rw [padOrTruncate_eq]
  simp

/-- Witness for `melFrameCount_short_clip`: the empty clip and the 0-frame grid
it produces, together with the frame-count formula at a 4096-sample clip. -/
theorem melFrameCount_short_clip_witness :
    ([] : List (List ℚ)) = [] ∧
    padOrTruncate [] MODEL_INPUT_NUM_FRAMES MODEL_INPUT_NUM_MELS
      = List.replicate MODEL_INPUT_NUM_FRAMES
          (List.replicate MODEL_INPUT_NUM_MELS paddingValue) ∧
    melFrameCount 4096 = (4096 - 2048) / 1024 + 1 :=
  melFrameCount_short_clip [] [] 4096 (by decide) (by decide) (by decide)
